import Mathlib

/-!
Verification development for the viz-store dashboard (src/app.py).

The app has three pieces: `load_themes` (YAML theme files → mapping keyed by
file stem), `get_mock_data` (per-region mock economic time series, memoized
with `@st.cache_data`), and `create_chart` (a plotly line chart styled from a
theme mapping).  We embed those functions shallowly:

* Dates are `(year, month)` pairs; `pd.date_range(start, end, freq='M')` is
  `date_range_M`, the list of consecutive months between two endpoints.
* Each generated column in `get_mock_data` is written in the source as a
  closed-form expression over `np.random.normal` draws: we keep that structure
  as a small expression type `ColExpr` (a normal sample, a cumulative sum of
  normal samples, scaling and shifting), so the per-region parameters chosen
  by the code are first-class data.  A separate evaluation semantics
  `evalDatasets` consumes an explicit stream of standard-normal draws
  (`np.random.normal mu sigma` draws `mu + sigma * z` for a fresh `z`), which
  lets us model the process-wide `st.cache_data` memoization as explicit
  state (`ProcState`, `get_mock_data_cached`).
* `create_chart` works over a typed pandas-frame model (`PdFrame`: named
  columns that are either datetime or numeric), a theme record whose three
  optional keys are `Option String` (the source reads them with `dict.get`
  and a default), and a plotly figure model whose fields are `Option`-valued
  until `update_layout` / `update_traces` set them.  Failures of the Python
  code (indexing `numeric_cols[0]` on an empty index, `px.line` on a missing
  x column) are `Except` errors.
-/

namespace VizStore

/-! ## Dates: pd.date_range(start='2020-01-01', end='2023-12-31', freq='M') -/

/-- A month-resolution timestamp: (year, month). `freq='M'` stamps are month
ends, so the day component carries no information and is dropped. -/
abbrev YMDate := Nat × Nat

/-- The month `k` months after `d`. -/
def monthsAfter : YMDate → Nat → YMDate
  | d, 0 => d
  | (y, m), Nat.succ k => monthsAfter (if m = 12 then (y + 1, 1) else (y, m + 1)) k

/-- `pd.date_range(start, end, freq='M')`: the consecutive months from `s`
to `e` inclusive (one point per month). -/
def date_range_M (s e : YMDate) : List YMDate :=
  (List.range (e.1 * 12 + e.2 + 1 - (s.1 * 12 + s.2))).map (monthsAfter s)

/-! ## Symbolic series expressions (the np.random recipes in get_mock_data) -/

/-- One generated column of `get_mock_data`, kept symbolically: each
constructor mirrors the numpy expression in the source.
`normal mu sigma` is `np.random.normal(mu, sigma, len(dates))`;
`cumsumNormal mu sigma` is `np.cumsum(np.random.normal(mu, sigma, len(dates)))`;
`scale`/`shift` are pointwise `* c` and `+ c`. -/
inductive ColExpr : Type where
  | normal (mu sigma : ℚ)
  | cumsumNormal (mu sigma : ℚ)
  | scale (c : ℚ) (e : ColExpr)
  | shift (c : ℚ) (e : ColExpr)
deriving DecidableEq

/-- One mock DataFrame: a shared `Date` axis plus named generated columns. -/
structure FrameSpec where
  dates : List YMDate
  cols : List (String × ColExpr)
deriving DecidableEq

/-- src/app.py `get_mock_data(region)` (lines 22-98): the twelve named mock
series for a region.  The region conditionals are verbatim from the source:
an `if/elif/else` choosing `emp_base, gdp_base, house_base, wage_base`, and
inline `x if region == "us" else (y if region == "aus" else z)` conditionals
in individual series. -/
def get_mock_data (region : String) : List (String × FrameSpec) :=
  let dates := date_range_M (2020, 1) (2023, 12)
  let b : ℚ × ℚ × ℚ × ℚ :=
    if region = "us" then (150000, 23000, 400000, 35)
    else if region = "aus" then (12000, 2000, 800000, 45)
    else (160000, 18000, 300000, 30)
  let emp_base := b.1
  let gdp_base := b.2.1
  let house_base := b.2.2.1
  let wage_base := b.2.2.2
  [ ("Employment Trends",
      { dates := dates,
        cols := [("Full Time", .normal emp_base (emp_base * 0.04)),
                 ("Part Time", .normal (emp_base * 0.6) (emp_base * 0.02))] }),
    ("Unemployment Rate",
      { dates := dates,
        cols := [("Rate",
          .normal (if region = "us" then 5.5 else if region = "aus" then 4.5 else 6.5)
            0.5)] }),
    ("GDP Growth",
      { dates := dates,
        cols := [("GDP", .shift gdp_base (.scale gdp_base (.cumsumNormal 0.5 0.2)))] }),
    ("CPI Trends",
      { dates := dates,
        cols := [("CPI",
          .shift (if region = "us" then 100 else if region = "aus" then 110 else 105)
            (.cumsumNormal 0.2 0.1))] }),
    ("Wage Growth",
      { dates := dates,
        cols := [("Wages", .shift wage_base (.cumsumNormal 0.3 0.1))] }),
    ("Housing Prices",
      { dates := dates,
        cols := [("Median Price", .shift house_base (.cumsumNormal 5000 1000))] }),
    ("Interest Rates",
      { dates := dates,
        cols := [("Rate",
          .shift (if region = "us" then 4.5 else if region = "aus" then 3.5 else 2.5)
            (.cumsumNormal 0.02 0.01))] }),
    ("Trade Balance",
      { dates := dates,
        cols := [("Exports", .normal (gdp_base * 0.12) (gdp_base * 0.01)),
                 ("Imports", .normal (gdp_base * 0.14) (gdp_base * 0.01))] }),
    ("Business Confidence",
      { dates := dates,
        cols := [("Index",
          .scale (if region = "us" then 1.1 else if region = "aus" then 1.0 else 0.9)
            (.normal 100 5))] }),
    ("Retail Sales",
      { dates := dates,
        cols := [("Sales",
          .shift (if region = "us" then 1000 else if region = "aus" then 800 else 900)
            (.cumsumNormal 0.4 0.1))] }),
    ("Manufacturing Index",
      { dates := dates,
        cols := [("Index",
          .scale (if region = "us" then 1.1 else if region = "aus" then 0.9 else 1.0)
            (.normal 55 3))] }),
    ("Consumer Confidence",
      { dates := dates,
        cols := [("Index",
          .scale (if region = "us" then 1.2 else if region = "aus" then 1.1 else 0.9)
            (.normal 95 4))] }) ]

/-- First-match lookup in an association list with string keys (the view of a
Python dict used by the app: `themes[stem]`, `datasets['GDP Growth']`, the
memoization cache). -/
def lookupD {α : Type} : List (String × α) → String → Option α
  | [], _ => none
  | (k, v) :: rest, key => if key = k then some v else lookupD rest key

/-! ## Evaluation semantics for the mock series

`np.random.normal(mu, sigma, n)` returns `mu + sigma * z` for `n` fresh
standard-normal draws `z`.  We make the draws explicit: an infinite stream
`om : Nat → ℚ` of standard-normal samples consumed left to right, with a
cursor position threaded through the computation. -/

/-- `np.cumsum`: inclusive running sums. -/
def cumsum_go (acc : ℚ) : List ℚ → List ℚ
  | [] => []
  | x :: rest => (acc + x) :: cumsum_go (acc + x) rest

/-- `np.cumsum xs`. -/
def cumsum (xs : List ℚ) : List ℚ := cumsum_go 0 xs

/-- The `n` stream values starting at cursor `pos`. -/
def streamChunk (om : Nat → ℚ) (pos n : Nat) : List ℚ :=
  (List.range n).map (fun i => om (pos + i))

/-- Evaluate one column expression on its block of standard-normal draws. -/
def evalColExpr (draws : List ℚ) : ColExpr → List ℚ
  | .normal mu sigma => draws.map (fun z => mu + sigma * z)
  | .cumsumNormal mu sigma => cumsum (draws.map (fun z => mu + sigma * z))
  | .scale c e => (evalColExpr draws e).map (fun v => v * c)
  | .shift c e => (evalColExpr draws e).map (fun v => v + c)

/-- A fully evaluated mock DataFrame: dates plus numeric column values. -/
structure EvalFrame where
  dates : List YMDate
  cols : List (String × List ℚ)
deriving DecidableEq

/-- Evaluate the columns of one frame; each column consumes `n` draws
(`n = len(dates)`), in order.  Returns the values and the new cursor. -/
def evalCols (om : Nat → ℚ) (pos n : Nat) :
    List (String × ColExpr) → List (String × List ℚ) × Nat
  | [] => ([], pos)
  | (nm, e) :: rest =>
      let v := evalColExpr (streamChunk om pos n) e
      let r := evalCols om (pos + n) n rest
      ((nm, v) :: r.1, r.2)

/-- Evaluate one frame spec. -/
def evalFrame (om : Nat → ℚ) (pos : Nat) (f : FrameSpec) : EvalFrame × Nat :=
  let r := evalCols om pos f.dates.length f.cols
  ({ dates := f.dates, cols := r.1 }, r.2)

/-- Evaluate a whole dataset collection, threading the draw cursor. -/
def evalDatasets (om : Nat → ℚ) (pos : Nat) :
    List (String × FrameSpec) → List (String × EvalFrame) × Nat
  | [] => ([], pos)
  | (nm, f) :: rest =>
      let e := evalFrame om pos f
      let r := evalDatasets om e.2 rest
      ((nm, e.1) :: r.1, r.2)

/-- One uncached execution of the body of `get_mock_data` at region `region`,
with the process RNG at cursor `pos`: the evaluated datasets and the new
cursor. -/
def computeMockData (om : Nat → ℚ) (pos : Nat) (region : String) :
    List (String × EvalFrame) × Nat :=
  evalDatasets om pos (get_mock_data region)

/-! ## The `@st.cache_data` memoization (process-wide, keyed by region) -/

/-- Process state relevant to `get_mock_data`: the RNG cursor and the
per-region memoization cache installed by `@st.cache_data`. -/
structure ProcState where
  rngPos : Nat
  cache : List (String × List (String × EvalFrame))
deriving DecidableEq

/-- The memoized `get_mock_data`, as the caller sees it: on a cache hit the
stored datasets are returned unchanged and nothing is recomputed (the RNG
cursor does not move); on a miss the body runs, consumes draws, and the result
is stored.  The final `Bool` reports whether the body was recomputed. -/
def get_mock_data_cached (om : Nat → ℚ) (s : ProcState) (region : String) :
    List (String × EvalFrame) × ProcState × Bool :=
  match lookupD s.cache region with
  | some v => (v, s, false)
  | none =>
      let r := computeMockData om s.rngPos region
      (r.1, ⟨r.2, (region, r.1) :: s.cache⟩, true)

/-! ## Pandas frames, themes and plotly figures for create_chart -/

/-- A pandas column as `create_chart` distinguishes them: `datetime64` (the
`Date` axis) or numeric (`np.number`). -/
inductive PdCol : Type where
  | datetime (vals : List YMDate)
  | numeric (vals : List ℚ)
deriving DecidableEq

/-- Whether `select_dtypes(include=[np.number])` keeps the column. -/
def PdCol.isNumeric : PdCol → Bool
  | .numeric _ => true
  | .datetime _ => false

/-- A pandas DataFrame: ordered named columns. -/
structure PdFrame where
  cols : List (String × PdCol)
deriving DecidableEq

/-- `data.select_dtypes(include=[np.number]).columns`: the names of the
numeric columns, in frame order. -/
def select_numeric_cols (df : PdFrame) : List String :=
  (df.cols.filter (fun c => c.2.isNumeric)).map Prod.fst

/-- `data[name]`: the column, if present. -/
def getCol (df : PdFrame) (nm : String) : Option PdCol := lookupD df.cols nm

/-- The numeric values of a column (empty if absent or non-numeric). -/
def colValues (df : PdFrame) (nm : String) : List ℚ :=
  match getCol df nm with
  | some (.numeric vs) => vs
  | _ => []

/-- A theme configuration as `create_chart` reads it: the five keys accessed
with `theme_config[...]` (a `KeyError` on absence is outside the behaviors the
app exercises, so they are plain fields), and the three keys accessed with
`theme_config.get(..., default)`, which are optional. -/
structure ThemeConfig where
  plotly_template : String
  color_palette : List String
  font_family : String
  background_color : String
  paper_color : String
  grid_color : Option String
  line_color : Option String
  text_color : Option String
deriving DecidableEq

/-- One plotly trace of the figure.  `line_width` and `hovertemplate` are
unset (`none`) until `fig.update_traces` sets them. -/
structure Trace where
  name : String
  x : PdCol
  y : List ℚ
  line_color : String
  line_width : Option ℚ
  hovertemplate : Option String
deriving DecidableEq

/-- The axis settings `fig.update_layout` installs for `xaxis` / `yaxis`. -/
structure AxisConfig where
  showgrid : Bool
  gridwidth : ℚ
  gridcolor : String
  showline : Bool
  linewidth : ℚ
  linecolor : String
  tickformat : Option String
  tickfont_color : String
deriving DecidableEq

/-- `margin=dict(t=30, l=10, r=10, b=10)`. -/
structure Margin where
  t : ℚ
  l : ℚ
  r : ℚ
  b : ℚ
deriving DecidableEq

/-- `hoverlabel=dict(bgcolor=..., font_size=12, font_family=...)`. -/
structure HoverLabel where
  bgcolor : String
  font_size : ℚ
  font_family : String
deriving DecidableEq

/-- A plotly figure, restricted to the fields this app sets.  Everything the
styling pass writes is `Option`-valued and starts out unset. -/
structure Figure where
  traces : List Trace
  template : String
  font_family : Option String
  plot_bgcolor : Option String
  paper_bgcolor : Option String
  margin : Option Margin
  height : Option ℚ
  xaxis : Option AxisConfig
  yaxis : Option AxisConfig
  hoverlabel : Option HoverLabel
  font_color : Option String
deriving DecidableEq

/-- The failures the Python code can raise inside `create_chart`. -/
inductive ChartError : Type where
  | indexOutOfBounds
  | missingColumn (nm : String)
deriving DecidableEq

/-- `color_discrete_sequence`: plotly assigns trace `i` the palette color at
index `i`, cycling. -/
def paletteColor (pal : List String) (i : Nat) : String :=
  pal.getD (i % pal.length) ""

/-- `px.line(data, x=x, y=ys, template=template, color_discrete_sequence=palette)`:
one trace per `y` column in order, colored from the palette in column order.
Raises if the `x` column is absent. -/
def px_line (df : PdFrame) (x : String) (ys : List String)
    (template : String) (palette : List String) : Except ChartError Figure :=
  match getCol df x with
  | none => .error (.missingColumn x)
  | some xcol =>
      .ok { traces := ys.enum.map (fun p =>
              { name := p.2, x := xcol, y := colValues df p.2,
                line_color := paletteColor palette p.1,
                line_width := none, hovertemplate := none }),
            template := template,
            font_family := none, plot_bgcolor := none, paper_bgcolor := none,
            margin := none, height := none, xaxis := none, yaxis := none,
            hoverlabel := none, font_color := none }

/-- The `fig.update_layout(...)` / `fig.update_traces(...)` pass of
`create_chart` (src/app.py lines 117-158), verbatim field by field. -/
def style_figure (fig : Figure) (theme_config : ThemeConfig) : Figure :=
  let xax : AxisConfig :=
    { showgrid := true, gridwidth := 1,
      gridcolor := theme_config.grid_color.getD "rgba(128, 128, 128, 0.1)",
      showline := true, linewidth := 1,
      linecolor := theme_config.line_color.getD "rgba(128, 128, 128, 0.3)",
      tickformat := some "%b %Y",
      tickfont_color := theme_config.text_color.getD "#1f2937" }
  { fig with
    font_family := some theme_config.font_family,
    plot_bgcolor := some theme_config.background_color,
    paper_bgcolor := some theme_config.paper_color,
    margin := some ⟨30, 10, 10, 10⟩,
    height := some 300,
    xaxis := some xax,
    yaxis := some { xax with tickformat := none },
    hoverlabel := some ⟨theme_config.paper_color, 12, theme_config.font_family⟩,
    font_color := some (theme_config.text_color.getD "#1f2937"),
    traces := fig.traces.map (fun t =>
      { t with line_width := some 2,
               hovertemplate := some "%\x7by:,.1f\x7d<br>%\x7bx|%B %Y\x7d<extra></extra>" }) }

/-- src/app.py `create_chart(data, chart_type, theme_config)` (lines 101-160).
`fig` starts as `None`; only the `"line"` branch sets it; if it was set, the
styling pass runs; the function returns `fig` (possibly still `None`).  The
single-numeric-column branch evaluates `numeric_cols[0]`, an out-of-bounds
access when the frame has no numeric column. -/
def create_chart (data : PdFrame) (chart_type : String) (theme_config : ThemeConfig) :
    Except ChartError (Option Figure) :=
  let numeric_cols := select_numeric_cols data
  if chart_type = "line" then
    if numeric_cols.length > 1 then
      match px_line data "Date" numeric_cols theme_config.plotly_template
          theme_config.color_palette with
      | .error e => .error e
      | .ok fig => .ok (some (style_figure fig theme_config))
    else
      match numeric_cols with
      | [] => .error .indexOutOfBounds
      | c :: _ =>
          match px_line data "Date" [c] theme_config.plotly_template
              theme_config.color_palette with
          | .error e => .error e
          | .ok fig => .ok (some (style_figure fig theme_config))
  else
    .ok none

/-! ## Theme loading (src/app.py lines 12-18)

`load_themes` globs `themes/*.yaml`, parses each file with `yaml.safe_load`
(an external library call: we carry each file as its parse result, a flat
key/value document) and stores the parsed mapping under the file's stem,
unchanged. -/

/-- A value in a parsed theme document: the theme files only hold strings and
lists of color strings. -/
inductive YamlVal : Type where
  | s (v : String)
  | l (v : List String)
deriving DecidableEq

/-- One file of the themes directory: its stem (file name without the `.yaml`
extension) and the flat document `yaml.safe_load` yields for it. -/
structure ThemeFile where
  stem : String
  doc : List (String × YamlVal)
deriving DecidableEq

/-- src/app.py `load_themes()`: map each theme file's stem to its parsed
document, verbatim. -/
def load_themes (files : List ThemeFile) : List (String × List (String × YamlVal)) :=
  files.map (fun f => (f.stem, f.doc))

/-! ## Concrete sample inputs used by witnesses and counterexamples -/

/-- A frame with a Date axis and one numeric column. -/
def oneSeriesFrame : PdFrame :=
  ⟨[("Date", .datetime [(2020, 1), (2020, 2)]), ("Rate", .numeric [5, 6])]⟩

/-- A frame shaped like Employment Trends: Date plus two numeric columns. -/
def twoSeriesFrame : PdFrame :=
  ⟨[("Date", .datetime [(2020, 1), (2020, 2)]),
    ("Full Time", .numeric [1, 2]), ("Part Time", .numeric [3, 4])]⟩

/-- A frame with no numeric column at all. -/
def dateOnlyFrame : PdFrame := ⟨[("Date", .datetime [(2020, 1)])]⟩

/-- A theme that omits the three optional color keys. -/
def bareTheme : ThemeConfig :=
  ⟨"plotly", ["#111111", "#222222"], "Arial", "#ffffff", "#000000", none, none, none⟩

/-- The all-unset figure (used only as a fallback when projecting). -/
def emptyFigure : Figure :=
  ⟨[], "", none, none, none, none, none, none, none, none, none⟩

/-- The figure delivered by a `create_chart` call, when one was produced. -/
def chartResultFigure (r : Except ChartError (Option Figure)) : Figure :=
  match r with
  | .ok (some f) => f
  | _ => emptyFigure

/-- The figure produced for `oneSeriesFrame` under `bareTheme`. -/
def figOne : Figure := chartResultFigure (create_chart oneSeriesFrame "line" bareTheme)

/-- The figure produced for `twoSeriesFrame` under `bareTheme`. -/
def figTwo : Figure := chartResultFigure (create_chart twoSeriesFrame "line" bareTheme)

/-- The x-axis gridline color a `create_chart` result carries, if any. -/
def xaxis_gridcolor (r : Except ChartError (Option Figure)) : Option String :=
  (chartResultFigure r).xaxis.map AxisConfig.gridcolor

/-- The parsed document of the round-trip example in the spec. -/
def darkDoc : List (String × YamlVal) :=
  [("plotly_template", YamlVal.s "plotly_dark"),
   ("color_palette", YamlVal.l ["#111", "#222"]),
   ("font_family", YamlVal.s "Arial"),
   ("paper_color", YamlVal.s "#000")]

/-! ## Theorems about the claims -/

/-! ### Helper lemmas (shared) -/

/-- Mapping a function of the index over an enumeration is mapping it over the
index range. -/
lemma map_enumFrom_fst {α β : Type} (g : Nat → β) : ∀ (n : Nat) (l : List α),
    (List.enumFrom n l).map (fun p => g p.1) = (List.range' n l.length).map g := by
  intro n l
  induction l generalizing n with
  | nil => rfl
  | cons a as ih => simp [List.enumFrom, List.range', ih]

/-- Any figure `create_chart` wraps in `.ok (some _)` is the styled `px.line`
figure over the frame's numeric columns (in both the multi-column and the
single-column branch). -/
lemma create_chart_ok_some_shape (df : PdFrame) (ty : String) (tc : ThemeConfig) (f : Figure)
    (h : create_chart df ty tc = .ok (some f)) :
    ∃ xcol, getCol df "Date" = some xcol ∧
      f = style_figure
        { traces := (select_numeric_cols df).enum.map (fun p =>
            { name := p.2, x := xcol, y := colValues df p.2,
              line_color := paletteColor tc.color_palette p.1,
              line_width := none, hovertemplate := none }),
          template := tc.plotly_template,
          font_family := none, plot_bgcolor := none, paper_bgcolor := none,
          margin := none, height := none, xaxis := none, yaxis := none,
          hoverlabel := none, font_color := none } tc := by
  simp only [create_chart] at h
  split at h
  · cases hx : getCol df "Date" with
    | none =>
        split at h <;> simp only [px_line, hx] at h <;> try exact absurd h (by simp)
        · split at h
          · exact absurd h (by simp)
          · simp at h
    | some xcol =>
        refine ⟨xcol, rfl, ?_⟩
        split at h
        · simp only [px_line, hx, Except.ok.injEq, Option.some.injEq] at h
          exact h.symm
        · rename_i hlen
          split at h
          · exact absurd h (by simp)
          · rename_i c cs hcols
            simp only [px_line, hx, Except.ok.injEq, Option.some.injEq] at h
            have hcs : cs = [] := by
              cases cs with
              | nil => rfl
              | cons d ds => rw [hcols] at hlen; simp at hlen
            subst hcs
            rw [hcols]
            exact h.symm
  · exact absurd h (by simp)

/-- For chart type `"line"` the result is never the unset figure `none`. -/
lemma create_chart_line_ne_ok_none (df : PdFrame) (tc : ThemeConfig) :
    create_chart df "line" tc ≠ .ok none := by
  intro h
  simp only [create_chart, if_true] at h
  split at h
  · cases hx : getCol df "Date" <;> simp [px_line, hx] at h
  · split at h
    · simp at h
    · cases hx : getCol df "Date" <;> simp [px_line, hx] at h

/-- For chart type `"line"`, a frame with at least one numeric column and a
`Date` column always yields a produced chart. -/
lemma create_chart_line_produces (df : PdFrame) (tc : ThemeConfig)
    (hne : select_numeric_cols df ≠ []) (hdate : (getCol df "Date").isSome = true) :
    ∃ f, create_chart df "line" tc = .ok (some f) := by
  cases hn : select_numeric_cols df with
  | nil => exact absurd hn hne
  | cons c cs =>
      cases hx : getCol df "Date" with
      | none => rw [hx] at hdate; simp at hdate
      | some xcol =>
          by_cases hlen : (select_numeric_cols df).length > 1
          · exact ⟨_, by simp [create_chart, hlen, px_line, hx]; rfl⟩
          · have hcs : cs = [] := by
              cases cs with
              | nil => rfl
              | cons d ds => exact absurd (by rw [hn]; simp) hlen
            subst hcs
            exact ⟨_, by simp [create_chart, hn, px_line, hx]; rfl⟩

/-! ### The claims -/

/-- C1: For every supported region identifier ("us", "aus", "eu") — indeed for
every region string — `get_mock_data` returns exactly twelve named series, and
every table in the returned collection shares one identical timestamp axis of
monthly points from 2020-01 to 2023-12 inclusive (48 points). -/
theorem mock_data_twelve_series_shared_monthly_axis (region : String) :
    (get_mock_data region).length = 12 ∧
    (get_mock_data region).map (fun e => e.2.dates) =
      List.replicate 12 (date_range_M (2020, 1) (2023, 12)) ∧
    (date_range_M (2020, 1) (2023, 12)).length = 48 ∧
    date_range_M (2020, 1) (2023, 12) =
      (List.range 48).map (fun i => (2020 + i / 12, 1 + i % 12)) ∧
    (date_range_M (2020, 1) (2023, 12)).head? = some (2020, 1) ∧
    (date_range_M (2020, 1) (2023, 12)).getLast? = some (2023, 12) :=
  ⟨rfl, rfl, by decide, by decide, by decide, by decide⟩

/-- C2: For every input region identifier other than "us" and "aus",
`get_mock_data` selects exactly the same generation parameters as for region
"eu" (the whole returned collection coincides with the "eu" one), instead of
raising an error. -/
theorem unknown_region_falls_back_to_eu (region : String)
    (h1 : region ≠ "us") (h2 : region ≠ "aus") :
    get_mock_data region = get_mock_data "eu" := by
  simp [get_mock_data, h1, h2]

/-- Witness for C2 at the concrete unrecognized region "fr". -/
theorem unknown_region_falls_back_to_eu_witness :
    get_mock_data "fr" = get_mock_data "eu" :=
  unknown_region_falls_back_to_eu "fr" (by decide) (by decide)

/-- C4: within one process, calling `get_mock_data` twice with the same region
returns bit-identical results without recomputation (second call: same value,
recomputed flag `false`), and calls with different regions are computed
independently: a call for one region never touches another region's cache
entry, and an uncached region always triggers its own fresh computation from
the current RNG position. -/
theorem mock_data_cached_memoization (om : Nat → ℚ) (s : ProcState) (region : String) :
    (get_mock_data_cached om (get_mock_data_cached om s region).2.1 region).1 =
      (get_mock_data_cached om s region).1 ∧
    (get_mock_data_cached om (get_mock_data_cached om s region).2.1 region).2.2 = false ∧
    (∀ r2, r2 ≠ region →
      lookupD (get_mock_data_cached om s region).2.1.cache r2 = lookupD s.cache r2) ∧
    (lookupD s.cache region = none →
      (get_mock_data_cached om s region).1 = (computeMockData om s.rngPos region).1 ∧
      (get_mock_data_cached om s region).2.2 = true) := by
  cases h : lookupD s.cache region with
  | some v =>
      refine ⟨?_, ?_, ?_, ?_⟩ <;> simp [get_mock_data_cached, h, lookupD]
  | none =>
      refine ⟨?_, ?_, ?_, ?_⟩ <;> simp [get_mock_data_cached, h, lookupD]
      · intro r2 h2
        simp [h2]

/-- Witness for C4: the all-zeros draw stream, an empty initial cache, the
first call at region "us", and the distinct region "aus". -/
theorem mock_data_cached_memoization_witness :
    ((get_mock_data_cached (fun _ => 0) (get_mock_data_cached (fun _ => 0) ⟨0, []⟩ "us").2.1 "us").1 =
        (get_mock_data_cached (fun _ => 0) ⟨0, []⟩ "us").1 ∧
      (get_mock_data_cached (fun _ => 0) (get_mock_data_cached (fun _ => 0) ⟨0, []⟩ "us").2.1 "us").2.2 =
        false) ∧
    lookupD (get_mock_data_cached (fun _ => 0) ⟨0, []⟩ "us").2.1.cache "aus" =
      lookupD (ProcState.mk 0 []).cache "aus" ∧
    ((get_mock_data_cached (fun _ => 0) ⟨0, []⟩ "us").1 =
        (computeMockData (fun _ => 0) 0 "us").1 ∧
      (get_mock_data_cached (fun _ => 0) ⟨0, []⟩ "us").2.2 = true) := by
  have h := mock_data_cached_memoization (fun _ => 0) ⟨0, []⟩ "us"
  exact ⟨⟨h.1, h.2.1⟩, h.2.2.1 "aus" (by decide), h.2.2.2 rfl⟩

/-- C7: the unemployment-rate series is `normal(5.5, 0.5)` for "us",
`normal(4.5, 0.5)` for "aus" and `normal(6.5, 0.5)` for "eu", over all 48
monthly points, and the housing-price series base (the shift added to the
cumulative walk) is 400000, 800000 and 300000 respectively. -/
theorem region_parameters_unemployment_and_housing :
    ((lookupD (get_mock_data "us") "Unemployment Rate").map FrameSpec.cols =
        some [("Rate", ColExpr.normal 5.5 0.5)] ∧
      (lookupD (get_mock_data "aus") "Unemployment Rate").map FrameSpec.cols =
        some [("Rate", ColExpr.normal 4.5 0.5)] ∧
      (lookupD (get_mock_data "eu") "Unemployment Rate").map FrameSpec.cols =
        some [("Rate", ColExpr.normal 6.5 0.5)]) ∧
    ((lookupD (get_mock_data "us") "Unemployment Rate").map (fun f => f.dates.length) =
        some 48) ∧
    ((lookupD (get_mock_data "us") "Housing Prices").map FrameSpec.cols =
        some [("Median Price", ColExpr.shift 400000 (ColExpr.cumsumNormal 5000 1000))] ∧
      (lookupD (get_mock_data "aus") "Housing Prices").map FrameSpec.cols =
        some [("Median Price", ColExpr.shift 800000 (ColExpr.cumsumNormal 5000 1000))] ∧
      (lookupD (get_mock_data "eu") "Housing Prices").map FrameSpec.cols =
        some [("Median Price", ColExpr.shift 300000 (ColExpr.cumsumNormal 5000 1000))]) :=
  ⟨⟨rfl, rfl, rfl⟩, rfl, rfl, rfl, rfl⟩

/-- C10: for every input region identifier the returned collection has exactly
the same twelve series names in exactly the same fixed order, independent of
the region. -/
theorem mock_data_series_names_fixed (region : String) :
    (get_mock_data region).map Prod.fst =
      ["Employment Trends", "Unemployment Rate", "GDP Growth", "CPI Trends",
       "Wage Growth", "Housing Prices", "Interest Rates", "Trade Balance",
       "Business Confidence", "Retail Sales", "Manufacturing Index",
       "Consumer Confidence"] := rfl

/-- C3, counterexample: with the three optional keys omitted, the gridline
color `create_chart` actually applies is `"rgba(128, 128, 128, 0.1)"` (with
spaces, as written in the source), which is not the spec's literal
`"rgba(128,128,128,0.1)"`; so the claim's exact default strings are wrong. -/
theorem spec_gridcolor_literal_mismatch :
    xaxis_gridcolor (create_chart oneSeriesFrame "line" bareTheme) =
      some "rgba(128, 128, 128, 0.1)" ∧
    xaxis_gridcolor (create_chart oneSeriesFrame "line" bareTheme) ≠
      some "rgba(128,128,128,0.1)" :=
  ⟨rfl, by decide⟩

/-- C3, amended: for every theme mapping that omits the optional keys
`grid_color`, `line_color` and `text_color`, `create_chart` with chart kind
"line" applies exactly the source's default color strings
`"rgba(128, 128, 128, 0.1)"` for gridlines, `"rgba(128, 128, 128, 0.3)"` for
axis lines, and `"#1f2937"` for text, on both axes and for the figure font. -/
theorem default_theme_colors_applied (df : PdFrame) (tc : ThemeConfig) (f : Figure)
    (h : create_chart df "line" tc = .ok (some f))
    (hg : tc.grid_color = none) (hl : tc.line_color = none) (ht : tc.text_color = none) :
    f.xaxis.map AxisConfig.gridcolor = some "rgba(128, 128, 128, 0.1)" ∧
    f.yaxis.map AxisConfig.gridcolor = some "rgba(128, 128, 128, 0.1)" ∧
    f.xaxis.map AxisConfig.linecolor = some "rgba(128, 128, 128, 0.3)" ∧
    f.yaxis.map AxisConfig.linecolor = some "rgba(128, 128, 128, 0.3)" ∧
    f.xaxis.map AxisConfig.tickfont_color = some "#1f2937" ∧
    f.yaxis.map AxisConfig.tickfont_color = some "#1f2937" ∧
    f.font_color = some "#1f2937" := by
  obtain ⟨xcol, hx, hf⟩ := create_chart_ok_some_shape df "line" tc f h
  subst hf
  simp [style_figure, hg, hl, ht]

/-- Witness for the amended C3 at a concrete frame and optional-free theme. -/
theorem default_theme_colors_applied_witness :
    figOne.xaxis.map AxisConfig.gridcolor = some "rgba(128, 128, 128, 0.1)" ∧
    figOne.yaxis.map AxisConfig.gridcolor = some "rgba(128, 128, 128, 0.1)" ∧
    figOne.xaxis.map AxisConfig.linecolor = some "rgba(128, 128, 128, 0.3)" ∧
    figOne.yaxis.map AxisConfig.linecolor = some "rgba(128, 128, 128, 0.3)" ∧
    figOne.xaxis.map AxisConfig.tickfont_color = some "#1f2937" ∧
    figOne.yaxis.map AxisConfig.tickfont_color = some "#1f2937" ∧
    figOne.font_color = some "#1f2937" :=
  default_theme_colors_applied oneSeriesFrame bareTheme figOne rfl rfl rfl rfl

/-- C5: a produced "line" chart draws one trace per numeric column of the
input table, excluding the timestamp column: the trace names are exactly the
numeric column names in column order, and the trace colors are the theme
palette applied in column order (so one numeric column gives a single-series
chart and two numeric columns give a two-series chart in the first two
palette colors). -/
theorem line_chart_one_trace_per_numeric_column (df : PdFrame) (tc : ThemeConfig) (f : Figure)
    (h : create_chart df "line" tc = .ok (some f)) :
    f.traces.length = (select_numeric_cols df).length ∧
    f.traces.map Trace.name = select_numeric_cols df ∧
    f.traces.map Trace.line_color =
      (List.range (select_numeric_cols df).length).map (paletteColor tc.color_palette) := by
  obtain ⟨xcol, hx, hf⟩ := create_chart_ok_some_shape df "line" tc f h
  subst hf
  refine ⟨?_, ?_, ?_⟩
  · simp [style_figure]
  · simp [style_figure, List.map_map, Function.comp_def, List.enum]
  · simp [style_figure, List.map_map, Function.comp_def, List.enum]
    rw [map_enumFrom_fst (paletteColor tc.color_palette), List.range_eq_range']

/-- Witness for C5 at the two-numeric-column frame `twoSeriesFrame`: a
two-series chart named after the two columns, in the first two palette
colors. -/
theorem line_chart_one_trace_per_numeric_column_witness :
    figTwo.traces.length = (select_numeric_cols twoSeriesFrame).length ∧
    figTwo.traces.map Trace.name = select_numeric_cols twoSeriesFrame ∧
    figTwo.traces.map Trace.line_color =
      (List.range (select_numeric_cols twoSeriesFrame).length).map
        (paletteColor bareTheme.color_palette) :=
  line_chart_one_trace_per_numeric_column twoSeriesFrame bareTheme figTwo rfl

/-- C6: `create_chart` returns the unset figure (`none`, an explicit no-op)
exactly when the chart-kind selector is not "line"; for chart kind "line" on
a table with a numeric column and a `Date` column, a chart object is always
produced. -/
theorem no_chart_iff_non_line (df : PdFrame) (ty : String) (tc : ThemeConfig) :
    (create_chart df ty tc = .ok none ↔ ty ≠ "line") ∧
    (ty = "line" → select_numeric_cols df ≠ [] → (getCol df "Date").isSome = true →
      ∃ f, create_chart df ty tc = .ok (some f)) := by
  constructor
  · constructor
    · intro h hty
      subst hty
      exact create_chart_line_ne_ok_none df tc h
    · intro hty
      simp [create_chart, hty]
  · intro hty hne hdate
    subst hty
    exact create_chart_line_produces df tc hne hdate

/-- Witness for C6: at `oneSeriesFrame` with kind "line" a chart is produced,
and the no-op side of the iff is checked at the unimplemented kind "bar". -/
theorem no_chart_iff_non_line_witness :
    (create_chart oneSeriesFrame "bar" bareTheme = .ok none ↔ "bar" ≠ "line") ∧
    (∃ f, create_chart oneSeriesFrame "line" bareTheme = .ok (some f)) :=
  ⟨(no_chart_iff_non_line oneSeriesFrame "bar" bareTheme).1,
   (no_chart_iff_non_line oneSeriesFrame "line" bareTheme).2 rfl (by decide) (by decide)⟩

/-- C8: `load_themes` maps each theme file's stem to its parsed attribute
document with no transformation, and on the spec's round-trip example (a file
`dark` with `plotly_template: "plotly_dark"`, `color_palette: ["#111","#222"]`,
`font_family: "Arial"`, `paper_color: "#000"`) the loaded theme's attributes
are those literal values verbatim. -/
theorem load_themes_stem_to_doc_verbatim :
    (∀ files f, f ∈ files → (f.stem, f.doc) ∈ load_themes files) ∧
    lookupD (load_themes [⟨"dark", darkDoc⟩]) "dark" = some darkDoc ∧
    darkDoc = [("plotly_template", YamlVal.s "plotly_dark"),
      ("color_palette", YamlVal.l ["#111", "#222"]),
      ("font_family", YamlVal.s "Arial"),
      ("paper_color", YamlVal.s "#000")] := by
  refine ⟨?_, rfl, rfl⟩
  intro files f hf
  exact List.mem_map_of_mem _ hf

/-- Witness for C8 at the concrete one-file directory. -/
theorem load_themes_stem_to_doc_verbatim_witness :
    ((⟨"dark", darkDoc⟩ : ThemeFile).stem, (⟨"dark", darkDoc⟩ : ThemeFile).doc) ∈
      load_themes [⟨"dark", darkDoc⟩] :=
  load_themes_stem_to_doc_verbatim.1 [⟨"dark", darkDoc⟩] ⟨"dark", darkDoc⟩ (by simp)

/-- C9: a "line" chart over a table with no numeric columns fails with the
out-of-bounds access `numeric_cols[0]` rather than returning no chart, and
the no-chart (`none`) result is reachable only with a non-"line" kind. -/
theorem empty_numeric_line_out_of_bounds :
    (∀ df tc, select_numeric_cols df = [] →
      create_chart df "line" tc = .error .indexOutOfBounds) ∧
    (∀ df ty tc, create_chart df ty tc = .ok none → ty ≠ "line") := by
  constructor
  · intro df tc h
    simp [create_chart, h]
  · intro df ty tc h hty
    subst hty
    exact create_chart_line_ne_ok_none df tc h

/-- Witness for C9: the numeric-column-free frame `dateOnlyFrame` makes the
"line" branch fail out of bounds, and the `none` result observed for kind
"bar" indeed has a non-"line" kind. -/
theorem empty_numeric_line_out_of_bounds_witness :
    create_chart dateOnlyFrame "line" bareTheme = .error .indexOutOfBounds ∧
    ("bar" : String) ≠ "line" :=
  ⟨empty_numeric_line_out_of_bounds.1 dateOnlyFrame bareTheme rfl,
   empty_numeric_line_out_of_bounds.2 dateOnlyFrame "bar" bareTheme rfl⟩

end VizStore
